import Mathlib

/-!
Verification of the Wardrobe panel (src/components/WardrobeModal.tsx and the
shared type declarations). The component is embedded as an event-driven state
machine: the React useState cells become fields of `PanelState`, the handlers
become cases of an executable `stepSys` function, external callbacks become
emitted `Callback` values, and the asynchronous `urlToFile` pipeline is a pure
function of a `CanvasEnv` describing which browser operations succeed.
-/

namespace Wardrobe

/-- JS `String.prototype.startsWith`, modelled on the character sequence:
`jsStartsWith s p` is true when `p` is a prefix of `s`. -/
def jsStartsWith (s p : String) : Bool := p.data.isPrefixOf s.data

/-- JS `String.prototype.trim`, modelled on the character sequence: drop
whitespace from both ends. -/
def jsTrim (s : String) : String :=
  ⟨((s.data.dropWhile Char.isWhitespace).reverse.dropWhile Char.isWhitespace).reverse⟩

/-- `WardrobeItem` from the shared type declarations: id, display name, url. -/
structure WardrobeItem where
  id : String
  name : String
  url : String
deriving DecidableEq, Repr

/-- A browser `File` as far as this component observes it: its name and its
declared MIME type. -/
structure File where
  name : String
  type : String
deriving DecidableEq, Repr

/-- `SavedLook` from the shared type declarations. -/
structure SavedLook where
  id : String
  name : String
  url : String
  createdAt : Nat
  garmentColors : Option (List String)
deriving DecidableEq, Repr

/-- Outcome environment for one `urlToFile` invocation: whether the image
element fires onload (vs onerror), whether `canvas.getContext` returns a
context, and what `canvas.toBlob` yields for a requested MIME type (`none`
models a null blob; `some t` a blob whose `type` field is `t`, possibly the
empty string). -/
structure CanvasEnv where
  imageLoads : Bool
  contextAvailable : Bool
  toBlob : String → Option String

/-- The three rejection reasons of `urlToFile`. -/
inductive UrlToFileError where
  | unreadableSource
  | noContext
  | encodeFailed
deriving DecidableEq, Repr

/-- The error message carried by each rejection, from the source strings
(for the onerror case, the fixed prefix of the template literal). -/
def UrlToFileError.message : UrlToFileError → String
  | .unreadableSource => "Could not load image from URL for canvas conversion."
  | .noContext => "Could not get canvas context."
  | .encodeFailed => "Canvas toBlob failed."

/-- `urlToFile` (WardrobeModal.tsx lines 24-56): load the url into an image;
on load, obtain a 2d context, draw, and ask the canvas to encode as
"image/png"; on a blob, default an empty blob type to "image/png" and wrap as
a `File` named `filename`. Each failure point rejects with its error. -/
def urlToFile (env : CanvasEnv) (_url filename : String) : Except UrlToFileError File :=
  if env.imageLoads then
    if env.contextAvailable then
      match env.toBlob "image/png" with
      | some blobType =>
          let mimeType := if blobType = "" then "image/png" else blobType
          Except.ok { name := filename, type := mimeType }
      | none => Except.error UrlToFileError.encodeFailed
    else Except.error UrlToFileError.noContext
  else Except.error UrlToFileError.unreadableSource

/-- One entry of the `COLORS` constant. -/
structure ColorSwatch where
  name : String
  hex : String
deriving DecidableEq, Repr

/-- The `COLORS` constant (lines 58-71): the 12 fixed swatches. -/
def COLORS : List ColorSwatch :=
  [ { name := "Original", hex := "transparent" },
    { name := "Black", hex := "#000000" },
    { name := "White", hex := "#FFFFFF" },
    { name := "Gray", hex := "#808080" },
    { name := "Red", hex := "#EF4444" },
    { name := "Blue", hex := "#3B82F6" },
    { name := "Green", hex := "#22C55E" },
    { name := "Yellow", hex := "#EAB308" },
    { name := "Purple", hex := "#A855F7" },
    { name := "Pink", hex := "#EC4899" },
    { name := "Orange", hex := "#F97316" },
    { name := "Brown", hex := "#78350F" } ]

/-- The 12 swatch names. -/
def colorNames : List String := COLORS.map (fun c => c.name)

/-- The two values of the `activeTab` state cell. -/
inductive Tab where
  | garments
  | looks
deriving DecidableEq, Repr

/-- The panel's `useState` cells (lines 84-90). -/
structure PanelState where
  error : Option String
  activeTab : Tab
  isSaveModalOpen : Bool
  newLookName : String
  selectedGarmentForColor : Option WardrobeItem
  selectedColor : String
  pendingFile : Option File
deriving DecidableEq, Repr

/-- The initial values of the state cells. -/
def initPanel : PanelState :=
  { error := none
    activeTab := Tab.garments
    isSaveModalOpen := false
    newLookName := ""
    selectedGarmentForColor := none
    selectedColor := "Original"
    pendingFile := none }

/-- The externally owned props the handlers read (lines 12-20). -/
structure PanelProps where
  activeGarmentIds : List String
  isLoading : Bool
  displayImageUrl : Option String
deriving DecidableEq, Repr

/-- Invocations of the externally owned callback props. -/
inductive Callback where
  | onGarmentSelect (file : File) (item : WardrobeItem) (color : String)
  | onSaveLook (name : String)
  | onDeleteLook (id : String)
  | onSelectLook (look : SavedLook)
deriving DecidableEq, Repr

/-- Whole-component state: the panel cells plus the list of garment
acquisitions started by `handleGarmentClick` whose promise has not yet
settled. -/
structure Sys where
  panel : PanelState
  inflight : List WardrobeItem
deriving DecidableEq, Repr

/-- The initial component state: initial cells, no acquisition in flight. -/
def initSys : Sys := { panel := initPanel, inflight := [] }

/-- The error message set when an acquisition rejects (line 103). -/
def corsErrorMessage : String :=
  "Failed to load wardrobe item. This is often a CORS issue. Check the developer console for details."

/-- The validation error message of `handleFileChange` (line 127). -/
def validationErrorMessage : String := "Please select an image file."

/-- The render condition of the color selection sub-view (line 320): it is
mounted exactly when `selectedGarmentForColor` is non-null. -/
def colorViewVisible (p : PanelState) : Bool := p.selectedGarmentForColor.isSome

/-- The `disabled` condition of the save-look submit button (line 306):
disabled while the trimmed name is empty. -/
def saveSubmitDisabled (p : PanelState) : Bool := jsTrim p.newLookName = ""

/-- UI events. Each event carries the props snapshot it is dispatched under
where the handler or the element's `disabled` attribute reads them, and the
environment values (canvas outcomes, `Date.now()`, `URL.createObjectURL`)
the handler consumes. `resolve i env` settles the i-th in-flight
acquisition with the canvas outcomes `env`. -/
inductive Event where
  | garmentClick (props : PanelProps) (item : WardrobeItem)
  | resolve (i : Nat) (env : CanvasEnv)
  | fileChange (props : PanelProps) (file : Option File) (now : Nat) (objUrl : String)
  | applyClick
  | cancelClick
  | selectColor (c : String)
  | tabClick (t : Tab)
  | saveOpen (props : PanelProps)
  | saveClose
  | setName (name : String)
  | saveSubmit
  | wearLook (look : SavedLook)
  | deleteLookClick (id : String)

/-- One step of the component: dispatch an event, returning the next state
and the callbacks invoked, in order. Mirrors the handlers of
WardrobeModal.tsx; events whose guard (in the handler or in the element's
`disabled` attribute / render condition) fails leave the state unchanged and
invoke nothing. -/
def stepSys (s : Sys) (e : Event) : Sys × List Callback :=
  match e with
  | .garmentClick props item =>
      -- handleGarmentClick, lines 92-95: guard, clear error, start acquisition.
      if props.isLoading || props.activeGarmentIds.contains item.id then (s, [])
      else ({ panel := { s.panel with error := none }
              inflight := s.inflight ++ [item] }, [])
  | .resolve i env =>
      -- handleGarmentClick continuation, lines 96-106.
      match s.inflight[i]? with
      | none => (s, [])
      | some item =>
        let rest := s.inflight.eraseIdx i
        match urlToFile env item.url item.name with
        | Except.ok file =>
            ({ panel := { s.panel with
                          pendingFile := some file
                          selectedGarmentForColor := some item
                          selectedColor := "Original" }
               inflight := rest }, [])
        | Except.error _ =>
            ({ panel := { s.panel with error := some corsErrorMessage }
               inflight := rest }, [])
  | .fileChange props file now objUrl =>
      -- handleFileChange, lines 123-141; the input is disabled while loading (line 205).
      if props.isLoading then (s, [])
      else
        match file with
        | none => (s, [])
        | some f =>
          if jsStartsWith f.type "image/" then
            let customGarmentInfo : WardrobeItem :=
              { id := "custom-" ++ toString now, name := f.name, url := objUrl }
            ({ s with panel := { s.panel with
                                 pendingFile := some f
                                 selectedGarmentForColor := some customGarmentInfo
                                 selectedColor := "Original" } }, [])
          else ({ s with panel := { s.panel with error := some validationErrorMessage } }, [])
  | .applyClick =>
      -- handleApplyGarment, lines 109-116.
      match s.panel.pendingFile, s.panel.selectedGarmentForColor with
      | some f, some item =>
          ({ s with panel := { s.panel with
                               pendingFile := none
                               selectedGarmentForColor := none
                               selectedColor := "Original" } },
           [Callback.onGarmentSelect f item s.panel.selectedColor])
      | _, _ => (s, [])
  | .cancelClick =>
      -- handleCancelColorSelection, lines 118-121.
      ({ s with panel := { s.panel with
                           pendingFile := none
                           selectedGarmentForColor := none } }, [])
  | .selectColor c =>
      -- Swatch buttons, lines 344-360: one per COLORS entry, rendered only
      -- while the color sub-view is mounted.
      if colorViewVisible s.panel && colorNames.contains c then
        ({ s with panel := { s.panel with selectedColor := c } }, [])
      else (s, [])
  | .tabClick t =>
      ({ s with panel := { s.panel with activeTab := t } }, [])
  | .saveOpen props =>
      -- Save Current Look button, lines 210-217: disabled while loading or
      -- without a display image.
      if props.isLoading || props.displayImageUrl.isNone then (s, [])
      else ({ s with panel := { s.panel with isSaveModalOpen := true } }, [])
  | .saveClose =>
      ({ s with panel := { s.panel with isSaveModalOpen := false } }, [])
  | .setName name =>
      -- Name input, lines 288-295, rendered only inside the save modal.
      if s.panel.isSaveModalOpen then
        ({ s with panel := { s.panel with newLookName := name } }, [])
      else (s, [])
  | .saveSubmit =>
      -- handleSaveSubmit, lines 143-151; the form exists only inside the modal.
      if s.panel.isSaveModalOpen then
        if jsTrim s.panel.newLookName = "" then (s, [])
        else
          ({ s with panel := { s.panel with
                               newLookName := ""
                               isSaveModalOpen := false
                               activeTab := Tab.looks } },
           [Callback.onSaveLook (jsTrim s.panel.newLookName)])
      else (s, [])
  | .wearLook look => (s, [Callback.onSelectLook look])
  | .deleteLookClick id => (s, [Callback.onDeleteLook id])

/-- States reachable from the initial state by any event sequence. -/
inductive Reachable : Sys → Prop where
  | init : Reachable initSys
  | next (e : Event) {s : Sys} : Reachable s → Reachable (stepSys s e).1

/-! ## Helper lemmas -/

/-- A successful `urlToFile` always returns a file named by the requested
filename. -/
theorem urlToFile_ok_name (env : CanvasEnv) (url filename : String) (f : File)
    (h : urlToFile env url filename = Except.ok f) : f.name = filename := by
  rcases env with ⟨il, ca, tb⟩
  cases il <;> cases ca <;> simp only [urlToFile] at h <;> try cases h
  cases htb : tb "image/png" <;> rw [htb] at h <;> simp at h
  rw [show f = { name := filename
                 type := if htb1 : _ then "image/png" else _ } from h.symm]

/-- C7: `urlToFile` fails in exactly three ways, each with a distinct error:
image decode failure gives the unreadable-source error, a missing drawing
context gives the environment-unsupported error, a null blob from encoding
gives the encode-failed error; every invocation either resolves with a file
or rejects with exactly one of these errors, never both. -/
theorem urlToFile_failure_taxonomy (env : CanvasEnv) (url filename : String) :
    (urlToFile env url filename = Except.error UrlToFileError.unreadableSource
       ↔ env.imageLoads = false)
  ∧ (urlToFile env url filename = Except.error UrlToFileError.noContext
       ↔ (env.imageLoads = true ∧ env.contextAvailable = false))
  ∧ (urlToFile env url filename = Except.error UrlToFileError.encodeFailed
       ↔ (env.imageLoads = true ∧ env.contextAvailable = true
           ∧ env.toBlob "image/png" = none))
  ∧ ((∃ f, urlToFile env url filename = Except.ok f)
       ↔ (env.imageLoads = true ∧ env.contextAvailable = true
           ∧ (env.toBlob "image/png").isSome = true))
  ∧ ¬((∃ f, urlToFile env url filename = Except.ok f)
       ∧ (∃ er, urlToFile env url filename = Except.error er))
  ∧ (UrlToFileError.message UrlToFileError.unreadableSource
       ≠ UrlToFileError.message UrlToFileError.noContext
     ∧ UrlToFileError.message UrlToFileError.unreadableSource
       ≠ UrlToFileError.message UrlToFileError.encodeFailed
     ∧ UrlToFileError.message UrlToFileError.noContext
       ≠ UrlToFileError.message UrlToFileError.encodeFailed) := by
  rcases env with ⟨il, ca, tb⟩
  cases il <;> cases ca <;>
    simp only [urlToFile, UrlToFileError.message] <;>
    try cases htb : tb "image/png" <;>
    simp_all [UrlToFileError.message]

/-- C6: whenever the image loads, a drawing context is available and encoding
yields a blob, `urlToFile` resolves with a file named by the requested
filename whose MIME type is the blob's reported type, defaulting to
image/png when the blob reports the empty type; the outcome depends on the
encoder only through its answer to the "image/png" request (the canvas is
always asked to encode as PNG); and a successful resolution of a garment
acquisition installs a pending file named after the source item. -/
theorem urlToFile_success_spec :
    (∀ (env : CanvasEnv) (url filename blobType : String),
       env.imageLoads = true → env.contextAvailable = true →
       env.toBlob "image/png" = some blobType →
       urlToFile env url filename =
         Except.ok { name := filename
                     type := if blobType = "" then "image/png" else blobType })
  ∧ (∀ (e1 e2 : CanvasEnv) (url1 url2 filename : String),
       e1.imageLoads = e2.imageLoads → e1.contextAvailable = e2.contextAvailable →
       e1.toBlob "image/png" = e2.toBlob "image/png" →
       urlToFile e1 url1 filename = urlToFile e2 url2 filename)
  ∧ (∀ (s : Sys) (i : Nat) (item : WardrobeItem) (env : CanvasEnv) (file : File),
       s.inflight[i]? = some item →
       urlToFile env item.url item.name = Except.ok file →
       (stepSys s (Event.resolve i env)).1.panel.pendingFile = some file
         ∧ file.name = item.name) := by
  refine ⟨?_, ?_, ?_⟩
  · intro env url filename blobType h1 h2 h3
    simp [urlToFile, h1, h2, h3]
  · intro e1 e2 url1 url2 filename h1 h2 h3
    rcases e1 with ⟨il1, ca1, tb1⟩
    rcases e2 with ⟨il2, ca2, tb2⟩
    simp only at h1 h2 h3
    subst h1
    subst h2
    simp [urlToFile, h3]
  · intro s i item env file hget hok
    refine ⟨?_, urlToFile_ok_name env item.url item.name file hok⟩
    simp [stepSys, hget, hok]

/-- Closed instance of `urlToFile_success_spec`: a concrete successful
conversion with an untyped blob yields a PNG-typed file with the requested
name; the outcome is independent of the source url; and a concrete
resolution installs the pending file named after the item. -/
theorem urlToFile_success_spec_witness :
    urlToFile { imageLoads := true, contextAvailable := true, toBlob := fun _ => some "" } "u" "n" =
      Except.ok { name := "n", type := "image/png" }
  ∧ urlToFile { imageLoads := true, contextAvailable := true, toBlob := fun _ => some "image/webp" } "u1" "n" =
      urlToFile { imageLoads := true, contextAvailable := true, toBlob := fun _ => some "image/webp" } "u2" "n"
  ∧ ((stepSys { panel := initPanel, inflight := [{ id := "g1", name := "A", url := "u1" }] }
        (Event.resolve 0 { imageLoads := true, contextAvailable := true, toBlob := fun _ => some "" })).1.panel.pendingFile
       = some { name := "A", type := "image/png" }
     ∧ ({ name := "A", type := "image/png" } : File).name
         = ({ id := "g1", name := "A", url := "u1" } : WardrobeItem).name) :=
  ⟨urlToFile_success_spec.1
     { imageLoads := true, contextAvailable := true, toBlob := fun _ => some "" } "u" "n" "" rfl rfl rfl,
   urlToFile_success_spec.2.1
     { imageLoads := true, contextAvailable := true, toBlob := fun _ => some "image/webp" }
     { imageLoads := true, contextAvailable := true, toBlob := fun _ => some "image/webp" }
     "u1" "u2" "n" rfl rfl rfl,
   urlToFile_success_spec.2.2
     { panel := initPanel, inflight := [{ id := "g1", name := "A", url := "u1" }] }
     0 { id := "g1", name := "A", url := "u1" }
     { imageLoads := true, contextAvailable := true, toBlob := fun _ => some "" }
     { name := "A", type := "image/png" } rfl rfl⟩

/-- C8: for every state, Cancel invokes no callback, clears the pending file
and candidate item (discarding the in-flight tuple, so the color sub-view
unmounts and the panel shows the Browsing grid again), and changes nothing
else. -/
theorem cancelColorSelection_spec (s : Sys) :
    stepSys s Event.cancelClick =
      ({ s with panel := { s.panel with
                           pendingFile := none
                           selectedGarmentForColor := none } }, [])
    ∧ colorViewVisible (stepSys s Event.cancelClick).1.panel = false := by
  exact ⟨rfl, by simp [stepSys, colorViewVisible]⟩

/-- C3: clicking a garment whose id is already active, and likewise clicking
any garment while the global loading flag is set, is a no-op: the whole
component state (panel cells and in-flight acquisitions) is unchanged and no
callback is invoked. -/
theorem garmentClick_noop (s : Sys) (props : PanelProps) (item : WardrobeItem)
    (h : props.isLoading = true ∨ props.activeGarmentIds.contains item.id = true) :
    stepSys s (Event.garmentClick props item) = (s, []) := by
  rcases h with h | h
  · simp [stepSys, h]
  · have hmem : item.id ∈ props.activeGarmentIds := by simpa using h
    simp [stepSys, hmem]

/-- Closed instance of `garmentClick_noop`: an active-id click and a
loading-time click on a concrete state. -/
theorem garmentClick_noop_witness :
    (stepSys initSys (Event.garmentClick
        { activeGarmentIds := ["g1"], isLoading := false, displayImageUrl := none }
        { id := "g1", name := "Tee", url := "https://x/t.png" }) = (initSys, []))
    ∧ (stepSys initSys (Event.garmentClick
        { activeGarmentIds := [], isLoading := true, displayImageUrl := none }
        { id := "g2", name := "Tee", url := "https://x/t.png" }) = (initSys, [])) :=
  ⟨garmentClick_noop initSys _ _ (Or.inr (by decide)),
   garmentClick_noop initSys _ _ (Or.inl rfl)⟩

/-- C4: a save-look submission with a name that is blank after trimming is
rejected — the submit button is disabled and dispatching submit changes
nothing and invokes nothing — while a submission with a non-blank trimmed
name invokes `onSaveLook` exactly once with the trimmed name, clears the
name field, closes the modal and switches the active tab to looks. -/
theorem saveSubmit_spec :
    (∀ s : Sys, jsTrim s.panel.newLookName = "" →
       saveSubmitDisabled s.panel = true ∧ stepSys s Event.saveSubmit = (s, []))
  ∧ (∀ s : Sys, s.panel.isSaveModalOpen = true → jsTrim s.panel.newLookName ≠ "" →
       stepSys s Event.saveSubmit =
         ({ s with panel := { s.panel with
                              newLookName := ""
                              isSaveModalOpen := false
                              activeTab := Tab.looks } },
          [Callback.onSaveLook (jsTrim s.panel.newLookName)])) := by
  constructor
  · intro s h
    refine ⟨by simp [saveSubmitDisabled, h], ?_⟩
    cases hm : s.panel.isSaveModalOpen <;> simp [stepSys, hm, h]
  · intro s hm h
    simp [stepSys, hm, h]

/-- Closed instance of `saveSubmit_spec`: a whitespace-only name is rejected
with the button disabled, and the name "  Summer Vibes  " submits as
"Summer Vibes" and switches to the looks tab. -/
theorem saveSubmit_spec_witness :
    (saveSubmitDisabled { initPanel with isSaveModalOpen := true, newLookName := " " } = true
     ∧ stepSys { panel := { initPanel with isSaveModalOpen := true, newLookName := " " }, inflight := [] }
         Event.saveSubmit =
       ({ panel := { initPanel with isSaveModalOpen := true, newLookName := " " }, inflight := [] }, []))
  ∧ stepSys { panel := { initPanel with isSaveModalOpen := true, newLookName := "  Summer Vibes  " }, inflight := [] }
      Event.saveSubmit =
    ({ panel := { initPanel with isSaveModalOpen := false, newLookName := "", activeTab := Tab.looks }, inflight := [] },
     [Callback.onSaveLook "Summer Vibes"]) := by
  refine ⟨saveSubmit_spec.1
    { panel := { initPanel with isSaveModalOpen := true, newLookName := " " }, inflight := [] }
    (by decide), ?_⟩
  have h := saveSubmit_spec.2
    { panel := { initPanel with isSaveModalOpen := true, newLookName := "  Summer Vibes  " }, inflight := [] }
    rfl (by decide)
  rw [h]
  simp [initPanel]
  decide

/-- C5: when custom upload dispatches with a chosen file while not loading:
a file whose declared MIME type does not start with "image/" sets the
validation error and changes nothing else (no candidate state, no callback,
no acquisition); a file whose type does start with "image/" synthesizes a
`WardrobeItem` with id custom-<timestamp>, name the file's name and url the
local object reference, and enters ColorPicking with that file pending and
the color reset, invoking nothing and starting no acquisition. -/
theorem fileChange_spec :
    (∀ (s : Sys) (props : PanelProps) (f : File) (now : Nat) (u : String),
       props.isLoading = false → jsStartsWith f.type "image/" = false →
       stepSys s (Event.fileChange props (some f) now u) =
         ({ s with panel := { s.panel with error := some validationErrorMessage } }, []))
  ∧ (∀ (s : Sys) (props : PanelProps) (f : File) (now : Nat) (u : String),
       props.isLoading = false → jsStartsWith f.type "image/" = true →
       stepSys s (Event.fileChange props (some f) now u) =
         ({ s with panel := { s.panel with
                              pendingFile := some f
                              selectedGarmentForColor :=
                                some { id := "custom-" ++ toString now
                                       name := f.name
                                       url := u }
                              selectedColor := "Original" } }, [])) := by
  constructor
  · intro s props f now u hl ht
    simp [stepSys, hl, ht]
  · intro s props f now u hl ht
    simp [stepSys, hl, ht]

/-- Closed instance of `fileChange_spec`: a text/plain file is rejected with
the validation error; an image/png file enters ColorPicking with a
synthesized custom item. -/
theorem fileChange_spec_witness :
    (stepSys initSys (Event.fileChange
        { activeGarmentIds := [], isLoading := false, displayImageUrl := none }
        (some { name := "a.txt", type := "text/plain" }) 7 "blob:1") =
      ({ panel := { initPanel with error := some validationErrorMessage }, inflight := [] }, []))
  ∧ (stepSys initSys (Event.fileChange
        { activeGarmentIds := [], isLoading := false, displayImageUrl := none }
        (some { name := "a.png", type := "image/png" }) 7 "blob:1") =
      ({ panel := { initPanel with
                    pendingFile := some { name := "a.png", type := "image/png" }
                    selectedGarmentForColor :=
                      some { id := "custom-7", name := "a.png", url := "blob:1" }
                    selectedColor := "Original" }
         inflight := [] }, [])) := by
  constructor
  · exact fileChange_spec.1 initSys _ _ 7 "blob:1" rfl (by decide)
  · have h := fileChange_spec.2 initSys
      { activeGarmentIds := [], isLoading := false, displayImageUrl := none }
      { name := "a.png", type := "image/png" } 7 "blob:1" rfl (by decide)
    rw [h]
    simp [initSys, initPanel]
    decide

/-- C10: only the garment-click path clears a displayed error (it nulls the
error before starting acquisition, whenever its guard passes); a successful
custom upload never touches the error, so after a validation failure a
successful upload enters ColorPicking with the stale validation message
still displayed, while a non-active, non-loading garment click removes
it. -/
theorem error_clearing_spec :
    (∀ (s : Sys) (props : PanelProps) (item : WardrobeItem),
       props.isLoading = false → props.activeGarmentIds.contains item.id = false →
       (stepSys s (Event.garmentClick props item)).1.panel.error = none)
  ∧ (∀ (s : Sys) (props : PanelProps) (f : File) (now : Nat) (u : String),
       props.isLoading = false → jsStartsWith f.type "image/" = true →
       (stepSys s (Event.fileChange props (some f) now u)).1.panel.error = s.panel.error
       ∧ colorViewVisible (stepSys s (Event.fileChange props (some f) now u)).1.panel = true)
  ∧ (∀ (s : Sys) (p1 p2 : PanelProps) (f g : File) (n1 n2 : Nat) (u1 u2 : String),
       p1.isLoading = false → jsStartsWith f.type "image/" = false →
       p2.isLoading = false → jsStartsWith g.type "image/" = true →
       ((stepSys (stepSys s (Event.fileChange p1 (some f) n1 u1)).1
           (Event.fileChange p2 (some g) n2 u2)).1.panel.error = some validationErrorMessage
        ∧ colorViewVisible (stepSys (stepSys s (Event.fileChange p1 (some f) n1 u1)).1
            (Event.fileChange p2 (some g) n2 u2)).1.panel = true))
  ∧ (∀ (s : Sys) (e : Event) (m : String),
       s.panel.error = some m → (stepSys s e).1.panel.error = none →
       ∃ props item, e = Event.garmentClick props item) := by
  refine ⟨?_, ?_, ?_, ?_⟩
  · intro s props item hl ha
    have hmem : item.id ∉ props.activeGarmentIds := by simpa using ha
    simp [stepSys, hl, hmem]
  · intro s props f now u hl ht
    simp [stepSys, hl, ht, colorViewVisible]
  · intro s p1 p2 f g n1 n2 u1 u2 h1 h2 h3 h4
    simp [stepSys, h1, h2, h3, h4, colorViewVisible]
  · intro s e m hm hn
    cases e
    case garmentClick props item => exact ⟨props, item, rfl⟩
    all_goals exfalso
    all_goals simp only [stepSys] at hn
    all_goals (repeat' split at hn) <;> simp_all

/-- Closed instance of `error_clearing_spec`: concrete garment click clears
the error; concrete upload after a rejection keeps the stale message while
showing the color view. -/
theorem error_clearing_spec_witness :
    ((stepSys { panel := { initPanel with error := some validationErrorMessage }, inflight := [] }
        (Event.garmentClick { activeGarmentIds := [], isLoading := false, displayImageUrl := none }
          { id := "g1", name := "Tee", url := "https://x/t.png" })).1.panel.error = none)
  ∧ ((stepSys (stepSys initSys
        (Event.fileChange { activeGarmentIds := [], isLoading := false, displayImageUrl := none }
          (some { name := "a.txt", type := "text/plain" }) 3 "blob:a")).1
        (Event.fileChange { activeGarmentIds := [], isLoading := false, displayImageUrl := none }
          (some { name := "b.png", type := "image/png" }) 4 "blob:b")).1.panel.error
        = some validationErrorMessage
     ∧ colorViewVisible (stepSys (stepSys initSys
        (Event.fileChange { activeGarmentIds := [], isLoading := false, displayImageUrl := none }
          (some { name := "a.txt", type := "text/plain" }) 3 "blob:a")).1
        (Event.fileChange { activeGarmentIds := [], isLoading := false, displayImageUrl := none }
          (some { name := "b.png", type := "image/png" }) 4 "blob:b")).1.panel = true)
  ∧ (∃ props item,
       (Event.garmentClick { activeGarmentIds := [], isLoading := false, displayImageUrl := none }
          { id := "g1", name := "Tee", url := "https://x/t.png" } : Event)
         = Event.garmentClick props item) :=
  ⟨error_clearing_spec.1 _ _ _ rfl (by decide),
   error_clearing_spec.2.2.1 initSys _ _ _ _ 3 4 "blob:a" "blob:b" rfl (by decide) rfl (by decide),
   error_clearing_spec.2.2.2
     { panel := { initPanel with error := some validationErrorMessage }, inflight := [] }
     (Event.garmentClick { activeGarmentIds := [], isLoading := false, displayImageUrl := none }
        { id := "g1", name := "Tee", url := "https://x/t.png" })
     validationErrorMessage rfl (by decide)⟩

/-- C9: with two acquisitions in flight that both resolve successfully, the
pending-selection state after both resolutions is the one written by
whichever resolved last, in either resolution order. -/
theorem lastResolvedWins (s : Sys) (a b : WardrobeItem) (e1 e2 : CanvasEnv) (fa fb : File)
    (hin : s.inflight = [a, b])
    (ha : urlToFile e1 a.url a.name = Except.ok fa)
    (hb : urlToFile e2 b.url b.name = Except.ok fb) :
    ((stepSys (stepSys s (Event.resolve 0 e1)).1 (Event.resolve 0 e2)).1.panel.pendingFile = some fb
     ∧ (stepSys (stepSys s (Event.resolve 0 e1)).1 (Event.resolve 0 e2)).1.panel.selectedGarmentForColor = some b
     ∧ (stepSys (stepSys s (Event.resolve 0 e1)).1 (Event.resolve 0 e2)).1.panel.selectedColor = "Original")
  ∧ ((stepSys (stepSys s (Event.resolve 1 e2)).1 (Event.resolve 0 e1)).1.panel.pendingFile = some fa
     ∧ (stepSys (stepSys s (Event.resolve 1 e2)).1 (Event.resolve 0 e1)).1.panel.selectedGarmentForColor = some a
     ∧ (stepSys (stepSys s (Event.resolve 1 e2)).1 (Event.resolve 0 e1)).1.panel.selectedColor = "Original") := by
  constructor
  · simp [stepSys, hin, ha, hb, List.eraseIdx]
  · simp [stepSys, hin, ha, hb, List.eraseIdx]

/-- Closed instance of `lastResolvedWins` on two concrete items and
successful canvas environments. -/
theorem lastResolvedWins_witness :
    ((stepSys (stepSys { panel := initPanel, inflight := [{ id := "g1", name := "A", url := "u1" }, { id := "g2", name := "B", url := "u2" }] }
          (Event.resolve 0 { imageLoads := true, contextAvailable := true, toBlob := fun _ => some "" })).1
        (Event.resolve 0 { imageLoads := true, contextAvailable := true, toBlob := fun _ => some "" })).1.panel.pendingFile
      = some { name := "B", type := "image/png" })
  ∧ ((stepSys (stepSys { panel := initPanel, inflight := [{ id := "g1", name := "A", url := "u1" }, { id := "g2", name := "B", url := "u2" }] }
          (Event.resolve 1 { imageLoads := true, contextAvailable := true, toBlob := fun _ => some "" })).1
        (Event.resolve 0 { imageLoads := true, contextAvailable := true, toBlob := fun _ => some "" })).1.panel.pendingFile
      = some { name := "A", type := "image/png" }) :=
  ⟨(lastResolvedWins
      { panel := initPanel, inflight := [{ id := "g1", name := "A", url := "u1" }, { id := "g2", name := "B", url := "u2" }] }
      { id := "g1", name := "A", url := "u1" } { id := "g2", name := "B", url := "u2" }
      { imageLoads := true, contextAvailable := true, toBlob := fun _ => some "" }
      { imageLoads := true, contextAvailable := true, toBlob := fun _ => some "" }
      { name := "A", type := "image/png" } { name := "B", type := "image/png" }
      rfl rfl rfl).1.1,
   (lastResolvedWins
      { panel := initPanel, inflight := [{ id := "g1", name := "A", url := "u1" }, { id := "g2", name := "B", url := "u2" }] }
      { id := "g1", name := "A", url := "u1" } { id := "g2", name := "B", url := "u2" }
      { imageLoads := true, contextAvailable := true, toBlob := fun _ => some "" }
      { imageLoads := true, contextAvailable := true, toBlob := fun _ => some "" }
      { name := "A", type := "image/png" } { name := "B", type := "image/png" }
      rfl rfl rfl).2.1⟩

/-- Step preservation: every event keeps the selected color one of the 12
swatch names. -/
theorem selectedColor_mem_step (s : Sys) (e : Event)
    (h : s.panel.selectedColor ∈ colorNames) :
    (stepSys s e).1.panel.selectedColor ∈ colorNames := by
  have hO : "Original" ∈ colorNames := by decide
  cases e <;> simp only [stepSys] <;> (repeat' split) <;> simp_all

/-- Every reachable state has its selected color among the 12 swatch
names. -/
theorem reachable_selectedColor_mem {s : Sys} (h : Reachable s) :
    s.panel.selectedColor ∈ colorNames := by
  induction h with
  | init => decide
  | next e _ ih => exact selectedColor_mem_step _ e ih

/-- Step preservation: every event keeps the pending file set exactly when
the candidate item is set. -/
theorem pending_iff_candidate_step (s : Sys) (e : Event)
    (h : s.panel.pendingFile.isSome = s.panel.selectedGarmentForColor.isSome) :
    (stepSys s e).1.panel.pendingFile.isSome
      = (stepSys s e).1.panel.selectedGarmentForColor.isSome := by
  cases e <;> simp only [stepSys] <;> (repeat' split) <;> simp_all

/-- Every reachable state has its pending file set exactly when the
candidate item is set. -/
theorem reachable_pending_iff_candidate {s : Sys} (h : Reachable s) :
    s.panel.pendingFile.isSome = s.panel.selectedGarmentForColor.isSome := by
  induction h with
  | init => rfl
  | next e _ ih => exact pending_iff_candidate_step _ e ih

/-- C1: in every reachable state the selected color is one of the 12 fixed
swatch names; with a pending file and candidate item present, Confirm
invokes `onGarmentSelect` exactly once with exactly that file, item and the
selected color, then clears the pending file and candidate item and resets
the color to Original (leaving Browsing on view); and every entry into
ColorPicking — garment acquisition resolving or custom upload accepted —
resets the color to Original. -/
theorem applyGarment_spec :
    (∀ s : Sys, Reachable s → s.panel.selectedColor ∈ colorNames)
  ∧ (∀ (s : Sys) (f : File) (i : WardrobeItem),
       s.panel.pendingFile = some f → s.panel.selectedGarmentForColor = some i →
       stepSys s Event.applyClick =
         ({ s with panel := { s.panel with
                              pendingFile := none
                              selectedGarmentForColor := none
                              selectedColor := "Original" } },
          [Callback.onGarmentSelect f i s.panel.selectedColor]))
  ∧ (∀ (s : Sys) (i : Nat) (item : WardrobeItem) (env : CanvasEnv) (file : File),
       s.inflight[i]? = some item → urlToFile env item.url item.name = Except.ok file →
       (stepSys s (Event.resolve i env)).1.panel.selectedColor = "Original")
  ∧ (∀ (s : Sys) (props : PanelProps) (f : File) (now : Nat) (u : String),
       props.isLoading = false → jsStartsWith f.type "image/" = true →
       (stepSys s (Event.fileChange props (some f) now u)).1.panel.selectedColor = "Original") := by
  refine ⟨fun s h => reachable_selectedColor_mem h, ?_, ?_, ?_⟩
  · intro s f i hp hs
    simp [stepSys, hp, hs]
  · intro s i item env file hget hok
    simp [stepSys, hget, hok]
  · intro s props f now u hl ht
    simp [stepSys, hl, ht]

/-- Closed instance of `applyGarment_spec`: the initial color is a swatch
name; Confirm on a concrete ColorPicking state with color Red emits exactly
one `onGarmentSelect` with (file, item, Red) and clears the tuple; a
concrete resolution and a concrete accepted upload both reset the color. -/
theorem applyGarment_spec_witness :
    initSys.panel.selectedColor ∈ colorNames
  ∧ stepSys { panel := { initPanel with
                         pendingFile := some { name := "A", type := "image/png" }
                         selectedGarmentForColor := some { id := "g1", name := "A", url := "u1" }
                         selectedColor := "Red" }
              inflight := [] } Event.applyClick =
      ({ panel := initPanel, inflight := [] },
       [Callback.onGarmentSelect { name := "A", type := "image/png" }
          { id := "g1", name := "A", url := "u1" } "Red"])
  ∧ (stepSys { panel := { initPanel with selectedColor := "Blue" }
               inflight := [{ id := "g1", name := "A", url := "u1" }] }
       (Event.resolve 0 { imageLoads := true, contextAvailable := true, toBlob := fun _ => some "" })).1.panel.selectedColor = "Original"
  ∧ (stepSys { panel := { initPanel with selectedColor := "Blue" }, inflight := [] }
       (Event.fileChange { activeGarmentIds := [], isLoading := false, displayImageUrl := none }
         (some { name := "b.png", type := "image/png" }) 4 "blob:b")).1.panel.selectedColor = "Original" := by
  refine ⟨applyGarment_spec.1 initSys Reachable.init, ?_, ?_, ?_⟩
  · have h := applyGarment_spec.2.1
      { panel := { initPanel with
                   pendingFile := some { name := "A", type := "image/png" }
                   selectedGarmentForColor := some { id := "g1", name := "A", url := "u1" }
                   selectedColor := "Red" }
        inflight := [] }
      { name := "A", type := "image/png" } { id := "g1", name := "A", url := "u1" } rfl rfl
    rw [h]
    simp [initPanel]
  · exact applyGarment_spec.2.2.1
      { panel := { initPanel with selectedColor := "Blue" }
        inflight := [{ id := "g1", name := "A", url := "u1" }] }
      0 { id := "g1", name := "A", url := "u1" }
      { imageLoads := true, contextAvailable := true, toBlob := fun _ => some "" }
      { name := "A", type := "image/png" } rfl rfl
  · exact applyGarment_spec.2.2.2
      { panel := { initPanel with selectedColor := "Blue" }, inflight := [] }
      { activeGarmentIds := [], isLoading := false, displayImageUrl := none }
      { name := "b.png", type := "image/png" } 4 "blob:b" rfl (by decide)

/-- C2: in every reachable state the color sub-view is mounted exactly when
a candidate item is set, and the pending file is set exactly when the
candidate item is set (so there is at most one in-flight selection tuple);
Cancel always clears both, and Confirm clears both from every reachable
state. -/
theorem colorView_invariant :
    (∀ s : Sys, Reachable s →
       ((colorViewVisible s.panel = true ↔ s.panel.selectedGarmentForColor.isSome = true)
        ∧ (s.panel.pendingFile.isSome = true ↔ s.panel.selectedGarmentForColor.isSome = true)))
  ∧ (∀ s : Sys,
       (stepSys s Event.cancelClick).1.panel.pendingFile = none
       ∧ (stepSys s Event.cancelClick).1.panel.selectedGarmentForColor = none)
  ∧ (∀ s : Sys, Reachable s →
       (stepSys s Event.applyClick).1.panel.pendingFile = none
       ∧ (stepSys s Event.applyClick).1.panel.selectedGarmentForColor = none) := by
  refine ⟨?_, ?_, ?_⟩
  · intro s h
    exact ⟨Iff.rfl, by rw [reachable_pending_iff_candidate h]⟩
  · intro s
    constructor <;> simp [stepSys]
  · intro s h
    have hpc := reachable_pending_iff_candidate h
    cases hp : s.panel.pendingFile with
    | none =>
        cases hs : s.panel.selectedGarmentForColor with
        | none => simp [stepSys, hp, hs]
        | some i => rw [hp, hs] at hpc; simp at hpc
    | some f =>
        cases hs : s.panel.selectedGarmentForColor with
        | none => rw [hp, hs] at hpc; simp at hpc
        | some i => simp [stepSys, hp, hs]

/-- Closed instance of `colorView_invariant` at the initial state. -/
theorem colorView_invariant_witness :
    ((colorViewVisible initSys.panel = true ↔ initSys.panel.selectedGarmentForColor.isSome = true)
     ∧ (initSys.panel.pendingFile.isSome = true ↔ initSys.panel.selectedGarmentForColor.isSome = true))
  ∧ ((stepSys initSys Event.applyClick).1.panel.pendingFile = none
     ∧ (stepSys initSys Event.applyClick).1.panel.selectedGarmentForColor = none) :=
  ⟨colorView_invariant.1 initSys Reachable.init,
   colorView_invariant.2.2 initSys Reachable.init⟩

end Wardrobe
